import Mathlib

/-!
Verification of the uihelper widget-construction library
(`src/uihelper/helpers/uihelper.py`) against its specification.

The embedding models the library's configuration bags (Python keyword
arguments), the attribute-decorator pipeline, the layout composers
`VBox`/`HBox`/`Rows`/`Columns`, the icon-name resolution of
`IconM`/`PixmapM`, and the file-dialog static last-path state.  Widgets
are represented by the ordered trace of toolkit mutator invocations
performed on them, since the claims under verification are about which
mutators run, in which order, and which errors are raised.
-/

namespace UIHelper

/-- Python values that can appear in a configuration bag.  `vbool` is kept
separate, but Python treats `bool` as a subclass of `int`, which
`PyVal.asInt?` reflects.  (Floats and toolkit objects are not needed by
the verified claims.) -/
inductive PyVal where
  | vint (n : Int)
  | vbool (b : Bool)
  | vstr (s : String)
  | vtuple (xs : List PyVal)
  | vcallable (id : Nat)
  | vnone

/-- Python truthiness, as used by `if value:` tests in the decorators. -/
def PyVal.truthy : PyVal → Bool
  | .vint n => n != 0
  | .vbool b => b
  | .vstr s => s != ""
  | .vtuple xs => !xs.isEmpty
  | .vcallable _ => true
  | .vnone => false

/-- `isinstance(v, int)`; Python `bool` is a subclass of `int`. -/
def PyVal.asInt? : PyVal → Option Int
  | .vint n => some n
  | .vbool b => some (if b then 1 else 0)
  | _ => Option.none

/-- A configuration bag: the keyword arguments of one factory call.
Keyword arguments of a Python call are distinct, so lookup takes the
first match. -/
abbrev Config : Type := List (String × PyVal)

/-- `kwargs.get(k)` (with default `None`, reported here as `Option.none`
when the key is absent). -/
def pyGet (bag : Config) (k : String) : Option PyVal :=
  (List.find? (fun kv => kv.1 == k) bag).map (fun kv => kv.2)

/-- `kwargs.get(k)` followed by an `is not None` test: an explicit `None`
value behaves exactly like an absent key. -/
def pyGetNN (bag : Config) (k : String) : Option PyVal :=
  match pyGet bag k with
  | some .vnone => Option.none
  | o => o

/-- The raised-error taxonomy relevant to the claims. -/
inductive PyError where
  | typeError (msg : String)
  | valueError (msg : String)
deriving DecidableEq, Repr

/-- One observable effect on a constructed widget: a mutator-method call
(`widget.method(args)`) or a signal connection (`signal.connect(slot)`). -/
inductive Mutation where
  | call (method : String) (args : List PyVal)
  | connect (signal : String)

/-- A widget is represented by the ordered trace of mutations performed
on it. -/
abbrev Widget : Type := List Mutation

/-- Result of one decoration step: the widget (with every mutation that
already happened, mirroring Python's in-place mutation) together with the
error that is propagating, if any. -/
abbrev DecoResult : Type := Widget × Option PyError

/-- Sequencing of decoration steps: once an error is raised it
propagates, but the mutations already performed stay on the widget. -/
def decoThen (r : DecoResult) (f : Widget → DecoResult) : DecoResult :=
  match r with
  | (w, Option.none) => f w
  | (w, some e) => (w, some e)

@[simp] theorem decoThen_ok (w : Widget) (f : Widget → DecoResult) :
    decoThen (w, Option.none) f = f w := rfl

@[simp] theorem decoThen_err (w : Widget) (e : PyError) (f : Widget → DecoResult) :
    decoThen (w, some e) f = (w, some e) := rfl

/-! ## Layout composer (`VBox`, `HBox`, `Rows`, `Columns`)

Leaf widgets, nested layouts and spacers are identified by a `Nat` tag.
The four `_LayoutCommand` singletons are the sentinels; a `(item, int)`
tuple is `Item.pair`.  Malformed tuples (wrong arity or non-int weight)
raise `ValueError` in the source before any dispatch; the claims under
verification never build them, so `pair` carries a well-typed weight.
`set_layout_props` (alignment, spacing, margin) only sets cosmetic
properties on the containers and is not part of any claim, so it is not
carried in the layout representation. -/

/-- An element of the flat item sequence passed to a layout composer. -/
inductive Item where
  | widget (id : Nat)
  | layout (id : Nat)
  | spacer (id : Nat)
  | nextRow
  | nextColumn
  | addStretch
  | addStretchLayout
  | pair (it : Item) (stretch : Int)
deriving DecidableEq, Repr

/-- The text Python would print for `type(item)` in the `TypeError`
message of the dispatch catch-all (class name only). -/
def pyTypeName : Item → String
  | .widget _ => "QWidget"
  | .layout _ => "QLayout"
  | .spacer _ => "QSpacerItem"
  | .pair _ _ => "tuple"
  | _ => "_LayoutCommand"

/-- `item, stretch = item` unpacking: a `(item, stretch)` tuple is
unpacked once, anything else keeps `default_stretch`. -/
def unpackItem (default_stretch : Int) : Item → Item × Int
  | .pair it s => (it, s)
  | it => (it, default_stretch)

/-- One entry added to a box layout (`addWidget` / `addLayout` /
`addItem` / `addStretch`). -/
inductive SubEntry where
  | widget (id : Nat) (stretch : Int)
  | sublayout (id : Nat) (stretch : Int)
  | spacer (id : Nat)
  | stretch
deriving DecidableEq, Repr

/-- Loop body shared verbatim by `VBox` and `HBox` (only the name in the
`TypeError` message differs). -/
def boxStep (fname : String) (default_stretch : Int) (acc : List SubEntry)
    (item0 : Item) : Except PyError (List SubEntry) :=
  let (item, stretch) := unpackItem default_stretch item0
  match item with
  | .widget id => .ok (acc ++ [.widget id stretch])
  | .layout id => .ok (acc ++ [.sublayout id stretch])
  | .spacer id => .ok (acc ++ [.spacer id])
  | .addStretch => .ok (acc ++ [.stretch])
  | other => .error (.typeError ("Unsupported item type in " ++ fname ++ ": " ++ pyTypeName other))

/-- The `for item in items` loop of the simple box variants: the first
raised error aborts the construction. -/
def runBox (fname : String) (default_stretch : Int) (acc : List SubEntry) :
    List Item → Except PyError (List SubEntry)
  | [] => .ok acc
  | x :: xs =>
    match boxStep fname default_stretch acc x with
    | .ok acc2 => runBox fname default_stretch acc2 xs
    | .error e => .error e

/-- `VBox(*items, default_stretch=...)`: one flat container. -/
def VBox (items : List Item) (default_stretch : Int) : Except PyError (List SubEntry) :=
  runBox "VBox" default_stretch [] items

/-- `HBox(*items, default_stretch=...)`: one flat container. -/
def HBox (items : List Item) (default_stretch : Int) : Except PyError (List SubEntry) :=
  runBox "HBox" default_stretch [] items

/-- What the outer container of `Rows`/`Columns` receives, in call
order: `addLayout(sub, stretch)` for each opened sub-container (its
contents filled in as the loop proceeds) or `addStretch()` raised by the
`AddStretchLayout` sentinel. -/
inductive OuterSlot where
  | subSlot (stretch : Int)
  | stretchSlot
deriving DecidableEq, Repr

/-- Loop state of `Rows`/`Columns`: the outer container's slots and the
contents of every opened sub-container, both most-recent-first.  The
head of `subsRev` is the current sub-container (`layout_item`); the
source only ever appends to the most recently opened one. -/
structure ComposeState where
  outerRev : List OuterSlot
  subsRev : List (List SubEntry)
deriving DecidableEq, Repr

def ComposeState.init : ComposeState := ⟨[], []⟩

/-- `layout_item.addWidget`, `.addLayout`, `.addItem` or `.addStretch`:
append one entry to the current sub-container.  A sub-container is always open when this is
reached. -/
def ComposeState.pushCur (st : ComposeState) (e : SubEntry) : ComposeState :=
  match st.subsRev with
  | c :: cs => { st with subsRev := (c ++ [e]) :: cs }
  | [] => st

/-- Loop body shared verbatim by `Rows` and `Columns`: `opener` is the
sentinel that starts a new sub-container (`NextRow` for `Rows`,
`NextColumn` for `Columns`); the other grid sentinel falls into the
dispatch catch-all and raises `TypeError`. -/
def gridStep (opener : Item) (fname : String) (default_stretch : Int)
    (st0 : ComposeState) (item0 : Item) : Except PyError ComposeState :=
  let (item, stretch) := unpackItem default_stretch item0
  -- `if item is NextRow or layout_item is None:` open a sub-container,
  -- appended to the outer container with the pending stretch weight
  let st := if item = opener ∨ st0.subsRev = [] then
      { outerRev := .subSlot stretch :: st0.outerRev, subsRev := [] :: st0.subsRev }
    else st0
  if item = opener then .ok st    -- `continue`: the sentinel is not placed
  else
    match item with
    | .widget id => .ok (st.pushCur (.widget id stretch))
    | .layout id => .ok (st.pushCur (.sublayout id stretch))
    | .spacer id => .ok (st.pushCur (.spacer id))
    | .addStretch => .ok (st.pushCur .stretch)
    | .addStretchLayout => .ok { st with outerRev := .stretchSlot :: st.outerRev }
    | other => .error (.typeError ("Unsupported item type in " ++ fname ++ ": " ++ pyTypeName other))

/-- The `for item in items` loop of the grid composers. -/
def runGrid (opener : Item) (fname : String) (default_stretch : Int)
    (st : ComposeState) : List Item → Except PyError ComposeState
  | [] => .ok st
  | x :: xs =>
    match gridStep opener fname default_stretch st x with
    | .ok st2 => runGrid opener fname default_stretch st2 xs
    | .error e => .error e

/-- The finished outer container: each sub-container with its contents
and stretch weight, interleaved with the outer-level stretch items. -/
inductive OuterEntry where
  | sub (entries : List SubEntry) (stretch : Int)
  | stretch
deriving DecidableEq, Repr

/-- Pair the outer slots (in call order) with the contents of the
sub-containers (in creation order, which is the same order). -/
def materializeOuter : List OuterSlot → List (List SubEntry) → List OuterEntry
  | [], _ => []
  | .stretchSlot :: rest, subs => .stretch :: materializeOuter rest subs
  | .subSlot s :: rest, c :: cs => .sub c s :: materializeOuter rest cs
  | .subSlot s :: rest, [] => .sub [] s :: materializeOuter rest []

/-- `Rows(*items, default_stretch=...)`: outer vertical container of
horizontal sub-containers. -/
def Rows (items : List Item) (default_stretch : Int) : Except PyError (List OuterEntry) :=
  match runGrid .nextRow "Rows" default_stretch .init items with
  | .ok st => .ok (materializeOuter st.outerRev.reverse st.subsRev.reverse)
  | .error e => .error e

/-- `Columns(*items, default_stretch=...)`: outer horizontal container of
vertical sub-containers. -/
def Columns (items : List Item) (default_stretch : Int) : Except PyError (List OuterEntry) :=
  match runGrid .nextColumn "Columns" default_stretch .init items with
  | .ok st => .ok (materializeOuter st.outerRev.reverse st.subsRev.reverse)
  | .error e => .error e

/-! ## Claim C3: row splitting at the `NextRow` sentinel -/

/-- C3: `Rows(A, NextRow, B, NextRow, C)` yields exactly three
sub-containers, each holding exactly one of the leaf widgets A, B, C in
input order; `Rows(A, B)` with no sentinel yields exactly one
sub-container holding A then B in input order. -/
theorem rows_sentinel_splitting (a b c : Nat) :
    Rows [.widget a, .nextRow, .widget b, .nextRow, .widget c] 0 =
      .ok [.sub [.widget a 0] 0, .sub [.widget b 0] 0, .sub [.widget c 0] 0]
  ∧ Rows [.widget a, .widget b] 0 =
      .ok [.sub [.widget a 0, .widget b 0] 0] := by
  exact ⟨rfl, rfl⟩

/-! ## Claim C9: the first element's weight is applied twice -/

/-- C9: when the first non-sentinel element opens the initial
sub-container of `Rows`/`Columns`, its stretch weight (paired weight, or
`default_stretch` when unpaired) is applied twice: as the new
sub-container's weight in the outer container and again as the element's
own weight inside that sub-container. -/
theorem first_row_weight_applied_twice (a : Nat) (wt d : Int) :
    Rows [.pair (.widget a) wt] d = .ok [.sub [.widget a wt] wt]
  ∧ Rows [.widget a] d = .ok [.sub [.widget a d] d]
  ∧ Columns [.pair (.widget a) wt] d = .ok [.sub [.widget a wt] wt]
  ∧ Columns [.widget a] d = .ok [.sub [.widget a d] d] := by
  exact ⟨rfl, rfl, rfl, rfl⟩

/-! ## Claim C5: the two stretch sentinels target different containers -/

/-- C5: in `Rows` and `Columns`, once a sub-container is open,
`AddStretchLayout` adds an elastic stretch to the outer container and
leaves every sub-container unchanged, while `AddStretch` appends an
elastic stretch to the current sub-container and leaves the outer
container's slots unchanged. -/
theorem stretch_sentinel_targets (d : Int) (st : ComposeState)
    (cur : List SubEntry) (rest : List (List SubEntry))
    (h : st.subsRev = cur :: rest) :
    gridStep .nextRow "Rows" d st .addStretchLayout =
      .ok { st with outerRev := .stretchSlot :: st.outerRev }
  ∧ gridStep .nextRow "Rows" d st .addStretch =
      .ok { st with subsRev := (cur ++ [.stretch]) :: rest }
  ∧ gridStep .nextColumn "Columns" d st .addStretchLayout =
      .ok { st with outerRev := .stretchSlot :: st.outerRev }
  ∧ gridStep .nextColumn "Columns" d st .addStretch =
      .ok { st with subsRev := (cur ++ [.stretch]) :: rest } := by
  refine ⟨?_, ?_, ?_, ?_⟩ <;>
    simp [gridStep, unpackItem, h, ComposeState.pushCur]

/-- Witness for C5 at a concrete state with one open sub-container
holding one widget. -/
theorem stretch_sentinel_targets_witness :
    gridStep .nextRow "Rows" 0 ⟨[.subSlot 0], [[.widget 7 0]]⟩ .addStretchLayout =
      .ok ⟨[.stretchSlot, .subSlot 0], [[.widget 7 0]]⟩
  ∧ gridStep .nextRow "Rows" 0 ⟨[.subSlot 0], [[.widget 7 0]]⟩ .addStretch =
      .ok ⟨[.subSlot 0], [[.widget 7 0, .stretch]]⟩ := by
  have h := stretch_sentinel_targets 0 ⟨[.subSlot 0], [[.widget 7 0]]⟩ [.widget 7 0] [] rfl
  exact ⟨h.1, h.2.1⟩

/-! ## Claim C10: the simple boxes accept `AddStretch` and no other sentinel -/

/-- Items the simple box dispatch accepts without raising: a widget,
layout, spacer or the `AddStretch` sentinel, possibly weighted by a
tuple. -/
def simpleCoreOk : Item → Bool
  | .widget _ => true
  | .layout _ => true
  | .spacer _ => true
  | .addStretch => true
  | _ => false

def simpleOk (it : Item) : Bool := simpleCoreOk (unpackItem 0 it).1

theorem boxStep_ok_of_simpleOk (fname : String) (d : Int) (acc : List SubEntry)
    (x : Item) (h : simpleOk x = true) :
    ∃ e, boxStep fname d acc x = .ok (acc ++ [e]) := by
  cases x with
  | widget id => exact ⟨.widget id d, rfl⟩
  | layout id => exact ⟨.sublayout id d, rfl⟩
  | spacer id => exact ⟨.spacer id, rfl⟩
  | addStretch => exact ⟨.stretch, rfl⟩
  | pair it s =>
    cases it with
    | widget id => exact ⟨.widget id s, rfl⟩
    | layout id => exact ⟨.sublayout id s, rfl⟩
    | spacer id => exact ⟨.spacer id, rfl⟩
    | addStretch => exact ⟨.stretch, rfl⟩
    | nextRow => simp [simpleOk, simpleCoreOk, unpackItem] at h
    | nextColumn => simp [simpleOk, simpleCoreOk, unpackItem] at h
    | addStretchLayout => simp [simpleOk, simpleCoreOk, unpackItem] at h
    | pair it2 s2 => simp [simpleOk, simpleCoreOk, unpackItem] at h
  | nextRow => simp [simpleOk, simpleCoreOk, unpackItem] at h
  | nextColumn => simp [simpleOk, simpleCoreOk, unpackItem] at h
  | addStretchLayout => simp [simpleOk, simpleCoreOk, unpackItem] at h

theorem runBox_grid_sentinel_error (fname : String) (d : Int)
    (pre rest : List Item) (s : Item) (acc : List SubEntry)
    (hpre : ∀ x ∈ pre, simpleOk x = true)
    (hs : s = .addStretchLayout ∨ s = .nextRow ∨ s = .nextColumn) :
    runBox fname d acc (pre ++ s :: rest) =
      .error (.typeError ("Unsupported item type in " ++ fname ++ ": " ++ "_LayoutCommand")) := by
  induction pre generalizing acc with
  | nil =>
    rcases hs with h | h | h <;> subst h <;>
      simp [runBox, boxStep, unpackItem, pyTypeName]
  | cons x xs ih =>
    obtain ⟨e, he⟩ := boxStep_ok_of_simpleOk fname d acc x (hpre x (by simp))
    have hstep : runBox fname d acc ((x :: xs) ++ s :: rest) =
        runBox fname d (acc ++ [e]) (xs ++ s :: rest) := by
      simp [runBox, he]
    rw [hstep]
    exact ih (acc ++ [e]) (fun y hy => hpre y (List.mem_cons_of_mem x hy))

/-- C10: a `VBox`/`HBox` call whose item sequence contains a
layout-command sentinel other than `AddStretch` (that is,
`AddStretchLayout`, `NextRow` or `NextColumn`) raises a `TypeError`
naming the offending item's type (`_LayoutCommand`); `AddStretch` itself
is accepted and adds an elastic stretch. -/
theorem simple_box_rejects_grid_sentinels (d : Int) (pre rest : List Item) (s : Item)
    (hpre : ∀ x ∈ pre, simpleOk x = true)
    (hs : s = .addStretchLayout ∨ s = .nextRow ∨ s = .nextColumn) :
    VBox (pre ++ s :: rest) d =
      .error (.typeError ("Unsupported item type in " ++ "VBox" ++ ": " ++ "_LayoutCommand"))
  ∧ HBox (pre ++ s :: rest) d =
      .error (.typeError ("Unsupported item type in " ++ "HBox" ++ ": " ++ "_LayoutCommand"))
  ∧ VBox [.addStretch] d = .ok [.stretch] := by
  exact ⟨runBox_grid_sentinel_error "VBox" d pre rest s [] hpre hs,
         runBox_grid_sentinel_error "HBox" d pre rest s [] hpre hs, rfl⟩

/-- Witness for C10: `VBox(widget, NextRow)` raises the `TypeError`,
`VBox(AddStretch)` succeeds. -/
theorem simple_box_rejects_grid_sentinels_witness :
    VBox [.widget 0, .nextRow] 0 =
      .error (.typeError ("Unsupported item type in " ++ "VBox" ++ ": " ++ "_LayoutCommand"))
  ∧ VBox [.addStretch] 0 = .ok [.stretch] := by
  have h := simple_box_rejects_grid_sentinels 0 [.widget 0] [] .nextRow
    (by intro x hx; simp at hx; subst hx; rfl) (Or.inr (Or.inl rfl))
  exact ⟨h.1, h.2.2⟩

/-! ## Attribute decorators

Each `set_widget_*` decorator wraps a factory: at call time the wrapped
function runs first (constructing the widget), then the wrapper inspects
the configuration bag and conditionally performs mutator calls.  The
`*_apply` functions below are those post-construction phases.  Quote
characters that the source puts around parameter names in error messages
are elided from the modelled message text. -/

/-- `set_widget_object_name`: `if object_name:` (truthiness test). -/
def set_widget_object_name_apply (bag : Config) (w : Widget) : DecoResult :=
  let object_name := (pyGet bag "object_name").getD .vnone
  if object_name.truthy then (w ++ [.call "setObjectName" [object_name]], Option.none)
  else (w, Option.none)

/-- `set_widget_style_sheet`: `if css:`. -/
def set_widget_style_sheet_apply (bag : Config) (w : Widget) : DecoResult :=
  let css := (pyGet bag "css").getD .vnone
  if css.truthy then (w ++ [.call "setStyleSheet" [css]], Option.none)
  else (w, Option.none)

/-- `set_widget_text`: `kwargs.get("text")`, falling back to a string
first positional argument, then `setText` when the result is not None. -/
def set_widget_text_apply (args : List PyVal) (bag : Config) (w : Widget) : DecoResult :=
  let t0 : Option PyVal := pyGetNN bag "text"
  let t : Option PyVal :=
    match t0, args with
    | Option.none, .vstr s :: _ => some (.vstr s)
    | o, _ => o
  match t with
  | some v => (w ++ [.call "setText" [v]], Option.none)
  | Option.none => (w, Option.none)

/-- `set_widget_shortcut`: `if shortcut:`. -/
def set_widget_shortcut_apply (bag : Config) (w : Widget) : DecoResult :=
  let shortcut := (pyGet bag "shortcut").getD .vnone
  if shortcut.truthy then (w ++ [.call "setShortcut" [shortcut]], Option.none)
  else (w, Option.none)

/-- `set_widget_icon`: `if icon:` then, nested, `if icon_size:` (the
source wraps `icon_size` in a `QSize` before the call). -/
def set_widget_icon_apply (bag : Config) (w : Widget) : DecoResult :=
  let icon := (pyGet bag "icon").getD .vnone
  let icon_size := (pyGet bag "icon_size").getD .vnone
  if icon.truthy then
    if icon_size.truthy then
      (w ++ [.call "setIcon" [icon], .call "setIconSize" [icon_size]], Option.none)
    else (w ++ [.call "setIcon" [icon]], Option.none)
  else (w, Option.none)

/-- `set_widget_tooltip`: `if tooltip_text:` then
`if tooltip_duration is not None:`. -/
def set_widget_tooltip_apply (bag : Config) (w : Widget) : DecoResult :=
  let tooltip_text := (pyGet bag "tooltip").getD .vnone
  let w1 := if tooltip_text.truthy then w ++ [.call "setToolTip" [tooltip_text]] else w
  match pyGetNN bag "tooltip_duration_ms" with
  | some v => (w1 ++ [.call "setToolTipDuration" [v]], Option.none)
  | Option.none => (w1, Option.none)

/-- One `if <bound> is not None:` block of `set_widget_size`: validate
that the value is a non-negative `int` (raising `ValueError` otherwise)
and invoke the corresponding setter. -/
def applyNonNegInt (pname method : String) (v : Option PyVal) (w : Widget) : DecoResult :=
  match v with
  | Option.none => (w, Option.none)
  | some pv =>
    match pv.asInt? with
    | some n =>
      if n < 0 then (w, some (.valueError (pname ++ " must be a non-negative integer")))
      else (w ++ [.call method [pv]], Option.none)
    | Option.none => (w, some (.valueError (pname ++ " must be a non-negative integer")))

/-- Python `>` on the two already-validated int-like bound values. -/
def pyIntGT (a b : PyVal) : Bool :=
  match a.asInt?, b.asInt? with
  | some x, some y => decide (y < x)
  | _, _ => false

/-- `set_widget_size`: the four bounds are each validated and applied
individually, in source order, and only afterwards are the min/max cross
checks performed (width first, then height). -/
def set_widget_size_apply (bag : Config) (w : Widget) : DecoResult :=
  let min_width := pyGetNN bag "min_width"
  let max_width := pyGetNN bag "max_width"
  let min_height := pyGetNN bag "min_height"
  let max_height := pyGetNN bag "max_height"
  decoThen (applyNonNegInt "min_width" "setMinimumWidth" min_width w) (fun w =>
  decoThen (applyNonNegInt "max_width" "setMaximumWidth" max_width w) (fun w =>
  decoThen (applyNonNegInt "min_height" "setMinimumHeight" min_height w) (fun w =>
  decoThen (applyNonNegInt "max_height" "setMaximumHeight" max_height w) (fun w =>
  decoThen
    (match min_width, max_width with
     | some a, some b =>
       if pyIntGT a b then (w, some (.valueError "min_width cannot be greater than max_width"))
       else (w, Option.none)
     | _, _ => (w, Option.none))
    (fun w =>
      match min_height, max_height with
      | some a, some b =>
        if pyIntGT a b then (w, some (.valueError "min_height cannot be greater than max_height"))
        else (w, Option.none)
      | _, _ => (w, Option.none))))))

/-- `connect_slot(signal_name, parameter_name)`: if the bag holds the
parameter (not None), require it callable (`TypeError` otherwise) and
connect it to the named signal. -/
def connect_slot_apply (signal_name parameter_name : String) (bag : Config)
    (w : Widget) : DecoResult :=
  match pyGetNN bag parameter_name with
  | Option.none => (w, Option.none)
  | some v =>
    match v with
    | .vcallable _ => (w ++ [.connect signal_name], Option.none)
    | _ => (w, some (.typeError (parameter_name ++ " must be a callable")))

/-- The scalar Python types used by the modelled
`set_widget_attribute` call sites. -/
inductive PyType where
  | tyInt
  | tyStr
  | tyBool
deriving DecidableEq, Repr

def PyType.pyName : PyType → String
  | .tyInt => "int"
  | .tyStr => "str"
  | .tyBool => "bool"

/-- `isinstance(v, t)` for a scalar type; Python `bool` is a subclass of
`int`. -/
def pyIsinstance (v : PyVal) (t : PyType) : Bool :=
  match t, v with
  | .tyInt, .vint _ => true
  | .tyInt, .vbool _ => true
  | .tyStr, .vstr _ => true
  | .tyBool, .vbool _ => true
  | _, _ => false

/-- `set_widget_attribute(method_name, param_name, param_types,
default_value)` for a scalar `param_types` (the tuple-of-types branch is
not used by the modelled factories): look the parameter up with the
given default, and when not None, type-check it (`TypeError` on
mismatch) and invoke the mutator with it. -/
def set_widget_attribute_apply (method_name param_name : String) (ptype : PyType)
    (default_value : Option PyVal) (bag : Config) (w : Widget) : DecoResult :=
  let param_value : Option PyVal :=
    match pyGet bag param_name with
    | Option.none => default_value
    | some v => some v
  match param_value with
  | Option.none => (w, Option.none)
  | some .vnone => (w, Option.none)
  | some pv =>
    if pyIsinstance pv ptype then (w ++ [.call method_name [pv]], Option.none)
    else (w, some (.typeError (param_name ++ " must be of type " ++ ptype.pyName)))

/-! ## Widget factories (`Button`, `SpinBox`)

The decorator wrappers all forward `*args, **kwargs` unchanged, so a
call to a decorated factory first binds the arguments against the
undecorated function's fixed signature: Python raises `TypeError` for a
keyword outside the declared parameter list (and for surplus or
duplicated positional arguments) before any construction happens.  Both
factories then construct a fresh default instance (the
`widget=existing` reconfiguration path is not exercised by the claims
and is not modelled) and the decorator phases run innermost-first. -/

/-- The first keyword of the bag not bound by the declared parameter
list, if any. -/
def unexpectedKw (declared : List String) (bag : Config) : Option String :=
  (List.find? (fun kv => !(declared.contains kv.1)) bag).map (fun kv => kv.1)

/-- The declared parameters of `Button` (its recognized option set). -/
def buttonKeywords : List String :=
  ["text", "widget", "object_name", "on_click", "icon", "icon_size",
   "min_width", "max_width", "min_height", "max_height", "css",
   "shortcut", "tooltip", "tooltip_duration_ms"]

/-- `Button(*args, **bag)`: Python argument binding, then construction
of a `QPushButton`, then the decorator chain (innermost first:
`connect_slot("clicked", "on_click")` up to `set_widget_object_name`). -/
def Button_call (args : List PyVal) (bag : Config) : DecoResult :=
  if 1 < args.length then
    ([], some (.typeError "Button() takes from 0 to 1 positional arguments"))
  else if args.length = 1 ∧ (pyGet bag "text").isSome then
    ([], some (.typeError "Button() got multiple values for argument text"))
  else
    match unexpectedKw buttonKeywords bag with
    | some k => ([], some (.typeError ("Button() got an unexpected keyword argument " ++ k)))
    | Option.none =>
      let w : Widget := []
      decoThen (connect_slot_apply "clicked" "on_click" bag w) (fun w =>
      decoThen (set_widget_tooltip_apply bag w) (fun w =>
      decoThen (set_widget_size_apply bag w) (fun w =>
      decoThen (set_widget_shortcut_apply bag w) (fun w =>
      decoThen (set_widget_icon_apply bag w) (fun w =>
      decoThen (set_widget_text_apply args bag w) (fun w =>
      decoThen (set_widget_style_sheet_apply bag w) (fun w =>
      set_widget_object_name_apply bag w)))))))

/-- The declared (keyword-only) parameters of `SpinBox`. -/
def spinBoxKeywords : List String :=
  ["value_range", "value", "single_step", "on_value_changed", "widget",
   "object_name", "css", "min_width", "max_width", "min_height", "max_height"]

/-- The body of `SpinBox` after construction: `value_range` is read from
the bound parameter, whose declared signature default is `(0, 1000)`, so
omitting the key still runs the validation and the `setRange` call. -/
def spinBoxBody (bag : Config) (w : Widget) : DecoResult :=
  let value_range : PyVal := (pyGet bag "value_range").getD (.vtuple [.vint 0, .vint 1000])
  match value_range with
  | .vnone => (w, Option.none)
  | .vtuple [mn, mx] =>
    (match mn.asInt?, mx.asInt? with
     | some a, some b =>
       if b < a then (w, some (.valueError "min value cannot be greater than max value"))
       else (w ++ [.call "setRange" [mn, mx]], Option.none)
     | _, _ => (w, some (.valueError "min and max values in value_range must be numbers")))
  | _ => (w, some (.valueError "value_range must be a tuple of (min, max)"))

/-- `SpinBox(**bag)`: Python keyword binding, construction plus the
`value_range` body, then the decorator chain (innermost first:
`connect_slot("valueChanged", "on_value_changed")`, then the
`value` and `singleStep` attribute decorators, `set_widget_style_sheet`,
`set_widget_object_name`).  Note the decorators read the configuration
bag directly, so the signature defaults of `value` and `single_step` do
not reach them. -/
def SpinBox_call (bag : Config) : DecoResult :=
  match unexpectedKw spinBoxKeywords bag with
  | some k => ([], some (.typeError ("SpinBox() got an unexpected keyword argument " ++ k)))
  | Option.none =>
    let w : Widget := []
    decoThen (spinBoxBody bag w) (fun w =>
    decoThen (connect_slot_apply "valueChanged" "on_value_changed" bag w) (fun w =>
    decoThen (set_widget_attribute_apply "value" "value" .tyInt Option.none bag w) (fun w =>
    decoThen (set_widget_attribute_apply "singleStep" "single_step" .tyInt Option.none bag w) (fun w =>
    decoThen (set_widget_style_sheet_apply bag w) (fun w =>
    set_widget_object_name_apply bag w)))))

/-! ## Claim C1: unrecognized configuration keys -/

/-- C1 counterexample: a `Button` call whose bag holds the unrecognized
key `unknown_key` does not succeed — Python keyword binding raises
`TypeError` — so the key is not ignored. -/
theorem button_unknown_key_rejected :
    Button_call [] [("unknown_key", .vint 1)] =
      ([], some (.typeError ("Button() got an unexpected keyword argument " ++ "unknown_key"))) := rfl

/-- C1, amended: for every bag containing a keyword outside `Button`'s
recognized set the factory call fails with a `TypeError` naming an
unexpected keyword (no widget is configured), even though each
individual attribute decorator by itself ignores keys other than its
own. -/
theorem button_unknown_key_typeerror (bag : Config) (k : String) (v : PyVal)
    (hmem : (k, v) ∈ bag) (hk : k ∉ buttonKeywords) :
    (∃ k2, k2 ∉ buttonKeywords ∧
        Button_call [] bag =
          ([], some (.typeError ("Button() got an unexpected keyword argument " ++ k2))))
  ∧ (∀ (k3 : String) (v3 : PyVal) (w : Widget), (k3 == "object_name") = false →
        set_widget_object_name_apply [(k3, v3)] w = (w, Option.none)) := by
  constructor
  · cases h2 : unexpectedKw buttonKeywords bag with
    | none =>
      exfalso
      have hf : List.find? (fun kv => !(buttonKeywords.contains kv.1)) bag = Option.none := by
        cases hf : List.find? (fun kv => !(buttonKeywords.contains kv.1)) bag with
        | none => rfl
        | some kv =>
          have h2' : (List.find? (fun kv => !(buttonKeywords.contains kv.1)) bag).map
              (fun kv => kv.1) = Option.none := h2
          rw [hf] at h2'
          simp at h2'
      have hinner := List.find?_eq_none.mp hf (k, v) hmem
      exact hk (by simpa using hinner)
    | some k2 =>
      have h2' : (List.find? (fun kv => !(buttonKeywords.contains kv.1)) bag).map
          (fun kv => kv.1) = some k2 := h2
      obtain ⟨kv, hkv, hfst⟩ := Option.map_eq_some'.mp h2'
      refine ⟨k2, ?_, ?_⟩
      · have hp := List.find?_some hkv
        rw [← hfst]
        simpa using hp
      · simp [Button_call, h2]
  · intro k3 v3 w h3
    have hfind : List.find? (fun kv => kv.1 == "object_name") [(k3, v3)] = Option.none := by
      rw [List.find?_cons_of_neg, List.find?_nil]
      simp [h3]
    simp [set_widget_object_name_apply, pyGet, hfind, PyVal.truthy]

/-- Witness for C1 at a concrete one-key bag. -/
theorem button_unknown_key_typeerror_witness :
    "unknown_key" ∉ buttonKeywords
  ∧ ((∃ k2, k2 ∉ buttonKeywords ∧
        Button_call [] [("unknown_key", .vint 1)] =
          ([], some (.typeError ("Button() got an unexpected keyword argument " ++ k2))))
     ∧ (∀ (k3 : String) (v3 : PyVal) (w : Widget), (k3 == "object_name") = false →
          set_widget_object_name_apply [(k3, v3)] w = (w, Option.none))) :=
  ⟨by decide,
   button_unknown_key_typeerror [("unknown_key", .vint 1)] "unknown_key" (.vint 1)
     (by simp) (by decide)⟩

/-! ## Claim C2: min/max cross check runs after both bounds were applied -/

theorem applyNonNegInt_extends (pname method : String) (v : Option PyVal) (w : Widget) :
    (∃ msg, applyNonNegInt pname method v w = (w, some (.valueError msg)))
  ∨ applyNonNegInt pname method v w = (w, Option.none)
  ∨ ∃ pv, applyNonNegInt pname method v w = (w ++ [.call method [pv]], Option.none) := by
  unfold applyNonNegInt
  cases v with
  | none => exact Or.inr (Or.inl rfl)
  | some pv =>
    cases h : pv.asInt? with
    | none => exact Or.inl ⟨pname ++ " must be a non-negative integer", by simp [h]⟩
    | some n =>
      by_cases hn : n < 0
      · exact Or.inl ⟨pname ++ " must be a non-negative integer", by simp [h, hn]⟩
      · exact Or.inr (Or.inr ⟨pv, by simp [h, hn]⟩)

/-- C2: whenever `min_width` and `max_width` are both supplied as
non-negative ints with `min_width > max_width`, `set_widget_size` fails
with a `ValueError`, and by then `setMinimumWidth` and `setMaximumWidth`
have both already been invoked on the widget, in that order (partial
configuration); symmetrically for the height pair. -/
theorem size_bounds_cross_check_after_apply :
    (∀ (bag : Config) (w : Widget) (a b : Int),
      pyGetNN bag "min_width" = some (.vint a) →
      pyGetNN bag "max_width" = some (.vint b) →
      0 ≤ a → 0 ≤ b → b < a →
      ∃ msg t, set_widget_size_apply bag w =
        (w ++ [.call "setMinimumWidth" [.vint a], .call "setMaximumWidth" [.vint b]] ++ t,
         some (.valueError msg)))
  ∧ (∀ (bag : Config) (w : Widget) (a b : Int),
      pyGetNN bag "min_width" = Option.none →
      pyGetNN bag "max_width" = Option.none →
      pyGetNN bag "min_height" = some (.vint a) →
      pyGetNN bag "max_height" = some (.vint b) →
      0 ≤ a → 0 ≤ b → b < a →
      set_widget_size_apply bag w =
        (w ++ [.call "setMinimumHeight" [.vint a], .call "setMaximumHeight" [.vint b]],
         some (.valueError "min_height cannot be greater than max_height"))) := by
  constructor
  · intro bag w a b hmw hxw ha hb hba
    have h1 : applyNonNegInt "min_width" "setMinimumWidth" (some (.vint a)) w =
        (w ++ [.call "setMinimumWidth" [.vint a]], Option.none) := by
      simp [applyNonNegInt, PyVal.asInt?, not_lt.mpr ha]
    have h2 : applyNonNegInt "max_width" "setMaximumWidth" (some (.vint b))
        (w ++ [.call "setMinimumWidth" [.vint a]]) =
        (w ++ [.call "setMinimumWidth" [.vint a], .call "setMaximumWidth" [.vint b]],
         Option.none) := by
      simp [applyNonNegInt, PyVal.asInt?, not_lt.mpr hb]
    have hgt : pyIntGT (.vint a) (.vint b) = true := by
      simp [pyIntGT, PyVal.asInt?, hba]
    simp only [set_widget_size_apply, hmw, hxw]
    rw [h1, decoThen_ok, h2, decoThen_ok]
    set W2 := w ++ [Mutation.call "setMinimumWidth" [.vint a],
      Mutation.call "setMaximumWidth" [.vint b]] with hW2
    rcases applyNonNegInt_extends "min_height" "setMinimumHeight"
        (pyGetNN bag "min_height") W2 with ⟨msg, he⟩ | he | ⟨pv, he⟩
    · exact ⟨msg, [], by simp [he]⟩
    · rw [he, decoThen_ok]
      rcases applyNonNegInt_extends "max_height" "setMaximumHeight"
          (pyGetNN bag "max_height") W2 with ⟨msg, he2⟩ | he2 | ⟨pv2, he2⟩
      · exact ⟨msg, [], by simp [he2]⟩
      · exact ⟨"min_width cannot be greater than max_width", [], by simp [he2, hgt]⟩
      · exact ⟨"min_width cannot be greater than max_width", [.call "setMaximumHeight" [pv2]],
          by simp [he2, hgt]⟩
    · rw [he, decoThen_ok]
      rcases applyNonNegInt_extends "max_height" "setMaximumHeight"
          (pyGetNN bag "max_height") (W2 ++ [.call "setMinimumHeight" [pv]]) with
        ⟨msg, he2⟩ | he2 | ⟨pv2, he2⟩
      · exact ⟨msg, [.call "setMinimumHeight" [pv]], by simp [he2]⟩
      · exact ⟨"min_width cannot be greater than max_width", [.call "setMinimumHeight" [pv]],
          by simp [he2, hgt]⟩
      · exact ⟨"min_width cannot be greater than max_width",
          [.call "setMinimumHeight" [pv], .call "setMaximumHeight" [pv2]],
          by simp [he2, hgt]⟩
  · intro bag w a b hmw hxw hmh hxh ha hb hba
    have hgt : pyIntGT (.vint a) (.vint b) = true := by
      simp [pyIntGT, PyVal.asInt?, hba]
    simp only [set_widget_size_apply, hmw, hxw, hmh, hxh, hgt]
    simp [applyNonNegInt, PyVal.asInt?, not_lt.mpr ha, not_lt.mpr hb, hgt]

/-- Witness for C2: `min_width=5, max_width=3` raises the width
`ValueError` after both width setters ran; `min_height=5, max_height=3`
symmetrically. -/
theorem size_bounds_cross_check_after_apply_witness :
    (∃ msg t, set_widget_size_apply [("min_width", .vint 5), ("max_width", .vint 3)] [] =
      (([] : Widget) ++ [.call "setMinimumWidth" [.vint 5], .call "setMaximumWidth" [.vint 3]] ++ t,
       some (.valueError msg)))
  ∧ set_widget_size_apply [("min_height", .vint 5), ("max_height", .vint 3)] [] =
      (([] : Widget) ++ [.call "setMinimumHeight" [.vint 5], .call "setMaximumHeight" [.vint 3]],
       some (.valueError "min_height cannot be greater than max_height")) :=
  ⟨size_bounds_cross_check_after_apply.1 [("min_width", .vint 5), ("max_width", .vint 3)] []
     5 3 rfl rfl (by decide) (by decide) (by decide),
   size_bounds_cross_check_after_apply.2 [("min_height", .vint 5), ("max_height", .vint 3)] []
     5 3 rfl rfl rfl rfl (by decide) (by decide) (by decide)⟩

/-! ## Claim C4: omitted keys and their mutators -/

theorem set_widget_object_name_skip (bag : Config) (w : Widget)
    (h : pyGet bag "object_name" = Option.none) :
    set_widget_object_name_apply bag w = (w, Option.none) := by
  simp [set_widget_object_name_apply, h, PyVal.truthy]

theorem set_widget_style_sheet_skip (bag : Config) (w : Widget)
    (h : pyGet bag "css" = Option.none) :
    set_widget_style_sheet_apply bag w = (w, Option.none) := by
  simp [set_widget_style_sheet_apply, h, PyVal.truthy]

theorem connect_slot_skip (s p : String) (bag : Config) (w : Widget)
    (h : pyGet bag p = Option.none) :
    connect_slot_apply s p bag w = (w, Option.none) := by
  simp [connect_slot_apply, pyGetNN, h]

theorem set_widget_attribute_skip (m p : String) (t : PyType) (bag : Config) (w : Widget)
    (h : pyGet bag p = Option.none) :
    set_widget_attribute_apply m p t Option.none bag w = (w, Option.none) := by
  simp [set_widget_attribute_apply, h]

/-- Every mutation the `SpinBox` body can add is a `setRange` call. -/
theorem spinBoxBody_mutations (bag : Config) (w : Widget) (m : Mutation)
    (hm : m ∈ (spinBoxBody bag w).1) :
    m ∈ w ∨ ∃ a b, m = .call "setRange" [a, b] := by
  simp only [spinBoxBody] at hm
  split at hm
  · exact Or.inl hm
  · split at hm
    · split at hm
      · exact Or.inl hm
      · rcases List.mem_append.mp hm with h | h
        · exact Or.inl h
        · simp at h
          exact Or.inr ⟨_, _, h⟩
    · exact Or.inl hm
  · exact Or.inl hm

/-- Splitting membership in a sequenced trace: the mutation was already
there before the step, or the step ran (no pending error) and produced
it. -/
theorem decoThen_mem (r : DecoResult) (f : Widget → DecoResult) (m : Mutation)
    (hm : m ∈ (decoThen r f).1) : m ∈ r.1 ∨ m ∈ (f r.1).1 := by
  rcases r with ⟨w, err⟩
  cases err with
  | none => exact Or.inr hm
  | some e => exact Or.inl hm

/-- `connect_slot` only ever adds its own connection, and only when its
parameter is present in the bag. -/
theorem connect_slot_mutations (s p : String) (bag : Config) (w : Widget) (m : Mutation)
    (hm : m ∈ (connect_slot_apply s p bag w).1) :
    m ∈ w ∨ (m = Mutation.connect s ∧ pyGet bag p ≠ Option.none) := by
  unfold connect_slot_apply at hm
  cases hv : pyGetNN bag p with
  | none => rw [hv] at hm; exact Or.inl hm
  | some v =>
    rw [hv] at hm
    have hp : pyGet bag p ≠ Option.none := by
      intro hn
      unfold pyGetNN at hv
      rw [hn] at hv
      simp at hv
    cases v with
    | vcallable id =>
      rcases List.mem_append.mp hm with h | h
      · exact Or.inl h
      · simp at h
        exact Or.inr ⟨h, hp⟩
    | vint n => exact Or.inl hm
    | vbool b => exact Or.inl hm
    | vstr s2 => exact Or.inl hm
    | vtuple xs => exact Or.inl hm
    | vnone => exact Or.inl hm

/-- `set_widget_attribute` (with no declared default) only ever adds a
call to its own mutator, and only when its parameter is present. -/
theorem set_widget_attribute_mutations (mn p : String) (t : PyType) (bag : Config)
    (w : Widget) (m : Mutation)
    (hm : m ∈ (set_widget_attribute_apply mn p t Option.none bag w).1) :
    m ∈ w ∨ ((∃ pv, m = Mutation.call mn [pv]) ∧ pyGet bag p ≠ Option.none) := by
  cases hv : pyGet bag p with
  | none =>
    simp only [set_widget_attribute_apply, hv] at hm
    exact Or.inl hm
  | some v =>
    cases v with
    | vnone =>
      simp only [set_widget_attribute_apply, hv] at hm
      exact Or.inl hm
    | vint n =>
      simp only [set_widget_attribute_apply, hv] at hm
      split at hm
      · rcases List.mem_append.mp hm with h | h
        · exact Or.inl h
        · simp at h
          exact Or.inr ⟨⟨_, h⟩, by simp⟩
      · exact Or.inl hm
    | vbool b =>
      simp only [set_widget_attribute_apply, hv] at hm
      split at hm
      · rcases List.mem_append.mp hm with h | h
        · exact Or.inl h
        · simp at h
          exact Or.inr ⟨⟨_, h⟩, by simp⟩
      · exact Or.inl hm
    | vstr s2 =>
      simp only [set_widget_attribute_apply, hv] at hm
      split at hm
      · rcases List.mem_append.mp hm with h | h
        · exact Or.inl h
        · simp at h
          exact Or.inr ⟨⟨_, h⟩, by simp⟩
      · exact Or.inl hm
    | vtuple xs =>
      simp only [set_widget_attribute_apply, hv] at hm
      split at hm
      · rcases List.mem_append.mp hm with h | h
        · exact Or.inl h
        · simp at h
          exact Or.inr ⟨⟨_, h⟩, by simp⟩
      · exact Or.inl hm
    | vcallable id =>
      simp only [set_widget_attribute_apply, hv] at hm
      split at hm
      · rcases List.mem_append.mp hm with h | h
        · exact Or.inl h
        · simp at h
          exact Or.inr ⟨⟨_, h⟩, by simp⟩
      · exact Or.inl hm

/-- `set_widget_style_sheet` only ever adds `setStyleSheet`, and only
when `css` is present (and truthy). -/
theorem set_widget_style_sheet_mutations (bag : Config) (w : Widget) (m : Mutation)
    (hm : m ∈ (set_widget_style_sheet_apply bag w).1) :
    m ∈ w ∨ ((∃ v, m = Mutation.call "setStyleSheet" [v]) ∧ pyGet bag "css" ≠ Option.none) := by
  simp only [set_widget_style_sheet_apply] at hm
  split at hm
  next htr =>
    rcases List.mem_append.mp hm with h | h
    · exact Or.inl h
    · simp at h
      refine Or.inr ⟨⟨_, h⟩, ?_⟩
      intro hn
      rw [hn] at htr
      simp [PyVal.truthy] at htr
  next => exact Or.inl hm

/-- `set_widget_object_name` only ever adds `setObjectName`, and only
when `object_name` is present (and truthy). -/
theorem set_widget_object_name_mutations (bag : Config) (w : Widget) (m : Mutation)
    (hm : m ∈ (set_widget_object_name_apply bag w).1) :
    m ∈ w ∨ ((∃ v, m = Mutation.call "setObjectName" [v]) ∧ pyGet bag "object_name" ≠ Option.none) := by
  simp only [set_widget_object_name_apply] at hm
  split at hm
  next htr =>
    rcases List.mem_append.mp hm with h | h
    · exact Or.inl h
    · simp at h
      refine Or.inr ⟨⟨_, h⟩, ?_⟩
      intro hn
      rw [hn] at htr
      simp [PyVal.truthy] at htr
  next => exact Or.inl hm

/-- C4 counterexample: the configuration bag of `SpinBox()` omits the
recognized optional key `value_range`, yet its mutator `setRange` is
invoked — with the declared default `(0, 1000)`. -/
theorem spinbox_value_range_default_applied_cex :
    SpinBox_call [] = ([.call "setRange" [.vint 0, .vint 1000]], Option.none) := rfl

/-- Every mutation in a `SpinBox` call's trace was produced by one of
its phases: the body's `setRange`, or one of the five decorator phases,
each of which requires its key to be present in the bag. -/
theorem spinBox_call_mutation_cases (bag : Config) (m : Mutation)
    (hm : m ∈ (SpinBox_call bag).1) :
    (∃ a b, m = Mutation.call "setRange" [a, b])
  ∨ (m = Mutation.connect "valueChanged" ∧ pyGet bag "on_value_changed" ≠ Option.none)
  ∨ ((∃ pv, m = Mutation.call "value" [pv]) ∧ pyGet bag "value" ≠ Option.none)
  ∨ ((∃ pv, m = Mutation.call "singleStep" [pv]) ∧ pyGet bag "single_step" ≠ Option.none)
  ∨ ((∃ v, m = Mutation.call "setStyleSheet" [v]) ∧ pyGet bag "css" ≠ Option.none)
  ∨ ((∃ v, m = Mutation.call "setObjectName" [v]) ∧ pyGet bag "object_name" ≠ Option.none) := by
  have T4 : ∀ w : Widget, m ∈ (decoThen (set_widget_style_sheet_apply bag w) (fun w =>
      set_widget_object_name_apply bag w)).1 →
      m ∈ w
    ∨ ((∃ v, m = Mutation.call "setStyleSheet" [v]) ∧ pyGet bag "css" ≠ Option.none)
    ∨ ((∃ v, m = Mutation.call "setObjectName" [v]) ∧ pyGet bag "object_name" ≠ Option.none) := by
    intro w hw
    rcases decoThen_mem _ _ m hw with h | h
    · rcases set_widget_style_sheet_mutations bag w m h with h0 | h0
      · exact Or.inl h0
      · exact Or.inr (Or.inl h0)
    · rcases set_widget_object_name_mutations bag _ m h with h0 | h0
      · rcases set_widget_style_sheet_mutations bag w m h0 with h1 | h1
        · exact Or.inl h1
        · exact Or.inr (Or.inl h1)
      · exact Or.inr (Or.inr h0)
  have T3 : ∀ w : Widget, m ∈ (decoThen
      (set_widget_attribute_apply "singleStep" "single_step" .tyInt Option.none bag w) (fun w =>
      decoThen (set_widget_style_sheet_apply bag w) (fun w =>
      set_widget_object_name_apply bag w))).1 →
      m ∈ w
    ∨ ((∃ pv, m = Mutation.call "singleStep" [pv]) ∧ pyGet bag "single_step" ≠ Option.none)
    ∨ ((∃ v, m = Mutation.call "setStyleSheet" [v]) ∧ pyGet bag "css" ≠ Option.none)
    ∨ ((∃ v, m = Mutation.call "setObjectName" [v]) ∧ pyGet bag "object_name" ≠ Option.none) := by
    intro w hw
    rcases decoThen_mem _ _ m hw with h | h
    · rcases set_widget_attribute_mutations "singleStep" "single_step" .tyInt bag w m h with h0 | h0
      · exact Or.inl h0
      · exact Or.inr (Or.inl h0)
    · rcases T4 _ h with h0 | h0 | h0
      · rcases set_widget_attribute_mutations "singleStep" "single_step" .tyInt bag w m h0 with h1 | h1
        · exact Or.inl h1
        · exact Or.inr (Or.inl h1)
      · exact Or.inr (Or.inr (Or.inl h0))
      · exact Or.inr (Or.inr (Or.inr h0))
  have T2 : ∀ w : Widget, m ∈ (decoThen
      (set_widget_attribute_apply "value" "value" .tyInt Option.none bag w) (fun w =>
      decoThen (set_widget_attribute_apply "singleStep" "single_step" .tyInt Option.none bag w) (fun w =>
      decoThen (set_widget_style_sheet_apply bag w) (fun w =>
      set_widget_object_name_apply bag w)))).1 →
      m ∈ w
    ∨ ((∃ pv, m = Mutation.call "value" [pv]) ∧ pyGet bag "value" ≠ Option.none)
    ∨ ((∃ pv, m = Mutation.call "singleStep" [pv]) ∧ pyGet bag "single_step" ≠ Option.none)
    ∨ ((∃ v, m = Mutation.call "setStyleSheet" [v]) ∧ pyGet bag "css" ≠ Option.none)
    ∨ ((∃ v, m = Mutation.call "setObjectName" [v]) ∧ pyGet bag "object_name" ≠ Option.none) := by
    intro w hw
    rcases decoThen_mem _ _ m hw with h | h
    · rcases set_widget_attribute_mutations "value" "value" .tyInt bag w m h with h0 | h0
      · exact Or.inl h0
      · exact Or.inr (Or.inl h0)
    · rcases T3 _ h with h0 | h0 | h0 | h0
      · rcases set_widget_attribute_mutations "value" "value" .tyInt bag w m h0 with h1 | h1
        · exact Or.inl h1
        · exact Or.inr (Or.inl h1)
      · exact Or.inr (Or.inr (Or.inl h0))
      · exact Or.inr (Or.inr (Or.inr (Or.inl h0)))
      · exact Or.inr (Or.inr (Or.inr (Or.inr h0)))
  have T1 : ∀ w : Widget, m ∈ (decoThen
      (connect_slot_apply "valueChanged" "on_value_changed" bag w) (fun w =>
      decoThen (set_widget_attribute_apply "value" "value" .tyInt Option.none bag w) (fun w =>
      decoThen (set_widget_attribute_apply "singleStep" "single_step" .tyInt Option.none bag w) (fun w =>
      decoThen (set_widget_style_sheet_apply bag w) (fun w =>
      set_widget_object_name_apply bag w))))).1 →
      m ∈ w
    ∨ (m = Mutation.connect "valueChanged" ∧ pyGet bag "on_value_changed" ≠ Option.none)
    ∨ ((∃ pv, m = Mutation.call "value" [pv]) ∧ pyGet bag "value" ≠ Option.none)
    ∨ ((∃ pv, m = Mutation.call "singleStep" [pv]) ∧ pyGet bag "single_step" ≠ Option.none)
    ∨ ((∃ v, m = Mutation.call "setStyleSheet" [v]) ∧ pyGet bag "css" ≠ Option.none)
    ∨ ((∃ v, m = Mutation.call "setObjectName" [v]) ∧ pyGet bag "object_name" ≠ Option.none) := by
    intro w hw
    rcases decoThen_mem _ _ m hw with h | h
    · rcases connect_slot_mutations "valueChanged" "on_value_changed" bag w m h with h0 | h0
      · exact Or.inl h0
      · exact Or.inr (Or.inl h0)
    · rcases T2 _ h with h0 | h0 | h0 | h0 | h0
      · rcases connect_slot_mutations "valueChanged" "on_value_changed" bag w m h0 with h1 | h1
        · exact Or.inl h1
        · exact Or.inr (Or.inl h1)
      · exact Or.inr (Or.inr (Or.inl h0))
      · exact Or.inr (Or.inr (Or.inr (Or.inl h0)))
      · exact Or.inr (Or.inr (Or.inr (Or.inr (Or.inl h0))))
      · exact Or.inr (Or.inr (Or.inr (Or.inr (Or.inr h0))))
  unfold SpinBox_call at hm
  cases hkw : unexpectedKw spinBoxKeywords bag with
  | some k => rw [hkw] at hm; simp at hm
  | none =>
    rw [hkw] at hm
    have hm2 : m ∈ (decoThen (spinBoxBody bag []) (fun w =>
        decoThen (connect_slot_apply "valueChanged" "on_value_changed" bag w) (fun w =>
        decoThen (set_widget_attribute_apply "value" "value" .tyInt Option.none bag w) (fun w =>
        decoThen (set_widget_attribute_apply "singleStep" "single_step" .tyInt Option.none bag w) (fun w =>
        decoThen (set_widget_style_sheet_apply bag w) (fun w =>
        set_widget_object_name_apply bag w)))))).1 := hm
    clear hm
    have Gbody : m ∈ (spinBoxBody bag []).1 → ∃ a b, m = Mutation.call "setRange" [a, b] := by
      intro h
      rcases spinBoxBody_mutations bag [] m h with h0 | h0
      · simp at h0
      · exact h0
    rcases decoThen_mem _ _ m hm2 with h | h
    · exact Or.inl (Gbody h)
    · rcases T1 _ h with h0 | h0 | h0 | h0 | h0 | h0
      · exact Or.inl (Gbody h0)
      · exact Or.inr (Or.inl h0)
      · exact Or.inr (Or.inr (Or.inl h0))
      · exact Or.inr (Or.inr (Or.inr (Or.inl h0)))
      · exact Or.inr (Or.inr (Or.inr (Or.inr (Or.inl h0))))
      · exact Or.inr (Or.inr (Or.inr (Or.inr (Or.inr h0))))

/-- C4, amended: for every `SpinBox` call omitting a recognized optional
key that is handled by a kwargs-reading decorator (`value`,
`single_step`, `on_value_changed`, `object_name`, `css`), the
corresponding mutator is never invoked, whatever else the bag contains;
but the mutator of a key with a declared non-None signature default read
in the factory body — `value_range` — is invoked with that default even
when the key is omitted (`SpinBox()` calls `setRange(0, 1000)`). -/
theorem spinbox_omitted_decorator_keys_skip :
    (∀ (bag : Config), pyGet bag "value" = Option.none →
      ∀ args, Mutation.call "value" args ∉ (SpinBox_call bag).1)
  ∧ (∀ (bag : Config), pyGet bag "single_step" = Option.none →
      ∀ args, Mutation.call "singleStep" args ∉ (SpinBox_call bag).1)
  ∧ (∀ (bag : Config), pyGet bag "on_value_changed" = Option.none →
      Mutation.connect "valueChanged" ∉ (SpinBox_call bag).1)
  ∧ (∀ (bag : Config), pyGet bag "object_name" = Option.none →
      ∀ args, Mutation.call "setObjectName" args ∉ (SpinBox_call bag).1)
  ∧ (∀ (bag : Config), pyGet bag "css" = Option.none →
      ∀ args, Mutation.call "setStyleSheet" args ∉ (SpinBox_call bag).1)
  ∧ (SpinBox_call []).1 = [Mutation.call "setRange" [.vint 0, .vint 1000]] := by
  refine ⟨?_, ?_, ?_, ?_, ?_, rfl⟩
  · intro bag hk args hmem
    rcases spinBox_call_mutation_cases bag _ hmem with
      ⟨a, b, he⟩ | ⟨he, hp⟩ | ⟨⟨pv, he⟩, hp⟩ | ⟨⟨pv, he⟩, hp⟩ | ⟨⟨v, he⟩, hp⟩ | ⟨⟨v, he⟩, hp⟩
    · simp at he
    · exact Mutation.noConfusion he
    · exact hp hk
    · simp at he
    · simp at he
    · simp at he
  · intro bag hk args hmem
    rcases spinBox_call_mutation_cases bag _ hmem with
      ⟨a, b, he⟩ | ⟨he, hp⟩ | ⟨⟨pv, he⟩, hp⟩ | ⟨⟨pv, he⟩, hp⟩ | ⟨⟨v, he⟩, hp⟩ | ⟨⟨v, he⟩, hp⟩
    · simp at he
    · exact Mutation.noConfusion he
    · simp at he
    · exact hp hk
    · simp at he
    · simp at he
  · intro bag hk hmem
    rcases spinBox_call_mutation_cases bag _ hmem with
      ⟨a, b, he⟩ | ⟨he, hp⟩ | ⟨⟨pv, he⟩, hp⟩ | ⟨⟨pv, he⟩, hp⟩ | ⟨⟨v, he⟩, hp⟩ | ⟨⟨v, he⟩, hp⟩
    · exact Mutation.noConfusion he
    · exact hp hk
    · exact Mutation.noConfusion he
    · exact Mutation.noConfusion he
    · exact Mutation.noConfusion he
    · exact Mutation.noConfusion he
  · intro bag hk args hmem
    rcases spinBox_call_mutation_cases bag _ hmem with
      ⟨a, b, he⟩ | ⟨he, hp⟩ | ⟨⟨pv, he⟩, hp⟩ | ⟨⟨pv, he⟩, hp⟩ | ⟨⟨v, he⟩, hp⟩ | ⟨⟨v, he⟩, hp⟩
    · simp at he
    · exact Mutation.noConfusion he
    · simp at he
    · simp at he
    · simp at he
    · exact hp hk
  · intro bag hk args hmem
    rcases spinBox_call_mutation_cases bag _ hmem with
      ⟨a, b, he⟩ | ⟨he, hp⟩ | ⟨⟨pv, he⟩, hp⟩ | ⟨⟨pv, he⟩, hp⟩ | ⟨⟨v, he⟩, hp⟩ | ⟨⟨v, he⟩, hp⟩
    · simp at he
    · exact Mutation.noConfusion he
    · simp at he
    · simp at he
    · exact hp hk
    · simp at he

/-- Witness for C4 at `SpinBox(value=5)`: the omitted `css` key's
mutator `setStyleSheet` is never invoked even though another recognized
key is present, while `SpinBox()` still calls `setRange(0, 1000)`. -/
theorem spinbox_omitted_decorator_keys_skip_witness :
    (∀ args, Mutation.call "setStyleSheet" args ∉ (SpinBox_call [("value", PyVal.vint 5)]).1)
  ∧ (SpinBox_call []).1 = [Mutation.call "setRange" [.vint 0, .vint 1000]] :=
  ⟨spinbox_omitted_decorator_keys_skip.2.2.2.2.1 [("value", PyVal.vint 5)] rfl,
   spinbox_omitted_decorator_keys_skip.2.2.2.2.2⟩

/-! ## File dialogs: process-wide last-path statics (claim C6)

The dialog interaction itself is external (the toolkit's file picker):
the path(s) the user picks are passed in as an argument, with the empty
result modelling a cancelled dialog.  Paths are POSIX (`os.sep` is
`"/"`, so the `.replace(os.sep, "/")` calls are identity). -/

/-- `os.path.dirname` for a POSIX path: everything before the final
slash, with trailing slashes stripped unless the head is all slashes. -/
def dirname (p : String) : String :=
  let head := (p.data.reverse.dropWhile (fun c => c != '/')).reverse
  if head.any (fun c => c != '/') then
    ⟨(head.reverse.dropWhile (fun c => c == '/')).reverse⟩
  else ⟨head⟩

/-- The four per-function static `last_path` fields, all initially
`""`. -/
structure DialogStatics where
  openFile_last : String
  openFiles_last : String
  saveFile_last : String
  openDir_last : String
deriving DecidableEq, Repr

def DialogStatics.start : DialogStatics := ⟨"", "", "", ""⟩

/-- `OpenFile(parent, ..., directory, ..., use_last_path)` with the
user's pick externalized.  Returns the updated statics, the returned
path (`Option.none` for cancel) and the `directory` argument that was
handed to the toolkit dialog.  NOTE: mirroring the source, the
`use_last_path` branch reads `OpenFiles.last_path` (uihelper.py line
1898) while a successful pick stores into `OpenFile.last_path` (line
1915). -/
def OpenFile_model (st : DialogStatics) (directory : Option String)
    (use_last_path : Bool) (picked : String) :
    DialogStatics × Option String × String :=
  let dir := if use_last_path ∧ st.openFiles_last ≠ "" then st.openFiles_last
             else directory.getD ""
  if picked ≠ "" then
    ({ st with openFile_last := dirname picked }, some picked, dir)
  else (st, Option.none, dir)

/-- `OpenFiles(...)`: reads and writes `OpenFiles.last_path` (the
directory of the first picked file); the returned list is sorted. -/
def OpenFiles_model (st : DialogStatics) (directory : Option String)
    (use_last_path : Bool) (picked : List String) :
    DialogStatics × List String × String :=
  let dir := if use_last_path ∧ st.openFiles_last ≠ "" then st.openFiles_last
             else directory.getD ""
  match picked with
  | [] => (st, [], dir)
  | f :: _ =>
    ({ st with openFiles_last := dirname f },
     picked.insertionSort (fun a b => a ≤ b), dir)

/-- C6 (code bug evidence): after `OpenFile` successfully picks
`"/a/b.txt"` it stores `"/a"` in its own static field, but a subsequent
`OpenFile(use_last_path := true)` starts from `""` — it consults
`OpenFiles.last_path`, which only an earlier `OpenFiles` call (here
picking `"/z/q.txt"`) would populate.  The claim's promised behavior —
reusing the directory remembered by the earlier `OpenFile` — does not
hold. -/
theorem openfile_last_path_crossed :
    ((OpenFile_model .start Option.none false "/a/b.txt").1.openFile_last = "/a")
  ∧ ((OpenFile_model (OpenFile_model .start Option.none false "/a/b.txt").1
        Option.none true "/c/d.txt").2.2 = "")
  ∧ ((OpenFile_model (OpenFiles_model .start Option.none false ["/z/q.txt"]).1
        Option.none true "/c/d.txt").2.2 = "/z") := by
  refine ⟨?_, ?_, ?_⟩ <;> rfl

/-! ## Icon-name resolution (claim C7) -/

/-- `str.startswith`, on the character lists of the strings. -/
def pyStartswith (s pre : String) : Bool := pre.data.isPrefixOf s.data

/-- `ICON_PATHS`: recognized prefix, resource-path part before the name,
and part after it (the source writes the path as a format template with
a single name placeholder). -/
def ICON_PATHS : List (String × String × String) :=
  [("ma-", ":/material-icons/", ".png"), ("i8-", ":/icons8-icons/", ".svg")]

/-- `PixmapM` name resolution: the first `ICON_PATHS` entry whose prefix
matches, else `ValueError`.  (Recoloring and scaling of the loaded
pixmap are toolkit effects outside the resolution contract.) -/
def PixmapM_resolve (image_name : String) : Except PyError String :=
  match List.find? (fun e => pyStartswith image_name e.1) ICON_PATHS with
  | some e => .ok (e.2.1 ++ image_name ++ e.2.2)
  | Option.none =>
    .error (.valueError "Invalid image name. Image name must start with a valid prefix like ma- or i8-.")

/-- `IconM` name resolution: an explicit if/elif chain over the same two
prefixes, else `ValueError`. -/
def IconM_resolve (icon_name : String) : Except PyError String :=
  if pyStartswith icon_name "ma-" then .ok (":/material-icons/" ++ icon_name ++ ".png")
  else if pyStartswith icon_name "i8-" then .ok (":/icons8-icons/" ++ icon_name ++ ".svg")
  else .error (.valueError "Invalid icon name. Icon name must start with ma- or i8-.")

/-- C7: every name starting with the recognized prefix `ma-` resolves,
in both `IconM` and `PixmapM`, to the material-icons resource path for
that name; every name starting with neither recognized prefix makes
both fail with a `ValueError`. -/
theorem icon_prefix_resolution (s : String) :
    (pyStartswith s "ma-" = true →
      IconM_resolve s = .ok (":/material-icons/" ++ s ++ ".png")
    ∧ PixmapM_resolve s = .ok (":/material-icons/" ++ s ++ ".png"))
  ∧ (pyStartswith s "ma-" = false → pyStartswith s "i8-" = false →
      IconM_resolve s =
        .error (.valueError "Invalid icon name. Icon name must start with ma- or i8-.")
    ∧ PixmapM_resolve s =
        .error (.valueError "Invalid image name. Image name must start with a valid prefix like ma- or i8-.")) := by
  constructor
  · intro h
    constructor
    · simp [IconM_resolve, h]
    · simp [PixmapM_resolve, ICON_PATHS, List.find?, h]
  · intro h1 h2
    constructor
    · simp [IconM_resolve, h1, h2]
    · simp [PixmapM_resolve, ICON_PATHS, List.find?, h1, h2]

/-- Witness for C7 at the spec's two example names. -/
theorem icon_prefix_resolution_witness :
    (IconM_resolve "ma-error-black" = .ok (":/material-icons/" ++ "ma-error-black" ++ ".png")
    ∧ PixmapM_resolve "ma-error-black" = .ok (":/material-icons/" ++ "ma-error-black" ++ ".png"))
  ∧ (IconM_resolve "xx-foo" =
      .error (.valueError "Invalid icon name. Icon name must start with ma- or i8-.")
    ∧ PixmapM_resolve "xx-foo" =
      .error (.valueError "Invalid image name. Image name must start with a valid prefix like ma- or i8-.")) :=
  ⟨(icon_prefix_resolution "ma-error-black").1 (by decide),
   (icon_prefix_resolution "xx-foo").2 (by decide) (by decide)⟩

end UIHelper
